import Mathlib

/-
  Verification development for the SU2 transport-property layer
  (src/SU2_CFD/src/transport_model.cpp).

  Doubles are modelled as real numbers: the claims under study are about
  algebraic equivalence and analytic derivatives, not floating-point
  operation order.  C pow(x, p) is modelled by Real.rpow; each C++ class
  is a structure holding its construction parameters and its mutable
  result fields, and each member function is a function from the
  structure (plus the call arguments) to the updated structure.
-/

set_option linter.unusedVariables false

noncomputable section

/-- Mutable result fields of CViscosityModel: the stored viscosity and its
two partial derivatives. -/
structure ViscosityState where
  Mu : ℝ
  dmudrho_T : ℝ
  dmudT_rho : ℝ

/-- CViscosityModel default constructor: all result fields start at 0.0. -/
def ViscosityState.init : ViscosityState := ⟨0, 0, 0⟩

/-- Mutable result fields of CConductivityModel. -/
structure ConductivityState where
  Kt : ℝ
  dktdrho_T : ℝ
  dktdT_rho : ℝ

/-- CConductivityModel default constructor: all result fields start at 0.0. -/
def ConductivityState.init : ConductivityState := ⟨0, 0, 0⟩

/-- CConstantViscosity: no parameters beyond the constant stored into Mu. -/
structure CConstantViscosity where
  state : ViscosityState

/-- CConstantViscosity(double mu_const): Mu = mu_const, derivatives 0.0. -/
def CConstantViscosity.construct (mu_const : ℝ) : CConstantViscosity :=
  ⟨⟨mu_const, 0, 0⟩⟩

/-- Modelled from the spec: the bodies of CConstantViscosity's evaluation
methods live in transport_model.hpp, which is not among the provided
sources; the spec states that for the Constant variant
"evaluate/evaluateDerivatives are no-ops". -/
def CConstantViscosity.SetViscosity (m : CConstantViscosity) (T rho : ℝ) :
    CConstantViscosity := m

/-- Modelled from the spec: see CConstantViscosity.SetViscosity. -/
def CConstantViscosity.SetDerViscosity (m : CConstantViscosity) (T rho : ℝ) :
    CConstantViscosity := m

/-- CSutherland: construction parameters Mu_ref, T_ref, S plus the state. -/
structure CSutherland where
  Mu_ref : ℝ
  T_ref : ℝ
  S : ℝ
  state : ViscosityState

/-- CSutherland(double mu_ref, double t_ref, double s). -/
def CSutherland.construct (mu_ref t_ref s : ℝ) : CSutherland :=
  ⟨mu_ref, t_ref, s, ViscosityState.init⟩

/-- CSutherland::SetViscosity:
Mu = Mu_ref*pow((T/T_ref),(3.0/2.0))*((T_ref + S)/(T + S)). -/
def CSutherland.SetViscosity (m : CSutherland) (T rho : ℝ) : CSutherland :=
  { m with state := { m.state with
      Mu := m.Mu_ref * (T / m.T_ref) ^ ((3 : ℝ)/2) * ((m.T_ref + m.S) / (T + m.S)) } }

/-- CSutherland::SetDerViscosity:
dmudrho_T = 0.0;
dmudT_rho = Mu_ref*( (3.0/2.0)*pow((T/T_ref),(1.0/2.0))*((T_ref+S)/(T+S))
                     - pow((T/T_ref),(3.0/2.0))*(T_ref+S)/(T+S)/(T+S) ). -/
def CSutherland.SetDerViscosity (m : CSutherland) (T rho : ℝ) : CSutherland :=
  { m with state := { m.state with
      dmudrho_T := 0
      dmudT_rho := m.Mu_ref * ((3 : ℝ)/2 * (T / m.T_ref) ^ ((1 : ℝ)/2) * ((m.T_ref + m.S) / (T + m.S))
                    - (T / m.T_ref) ^ ((3 : ℝ)/2) * (m.T_ref + m.S) / (T + m.S) / (T + m.S)) } }

/-- The temperature-to-viscosity function computed by CSutherland::SetViscosity,
as a function of T at fixed parameters (for differentiation). -/
def muSutherland (mu_ref t_ref s : ℝ) (T : ℝ) : ℝ :=
  mu_ref * (T / t_ref) ^ ((3 : ℝ)/2) * ((t_ref + s) / (T + s))

/-- The closed form the spec gives for the Sutherland temperature derivative:
dMu/dT = Mu_ref * [ 1.5*(T/T_ref)^0.5 * (T_ref+S)/(T+S)
                    - (T/T_ref)^1.5 * (T_ref+S)/(T+S)^2 ]. -/
def specSutherlandDmudT (mu_ref t_ref s : ℝ) (T : ℝ) : ℝ :=
  mu_ref * ((3 : ℝ)/2 * (T / t_ref) ^ ((1 : ℝ)/2) * (t_ref + s) / (T + s)
            - (T / t_ref) ^ ((3 : ℝ)/2) * (t_ref + s) / (T + s) ^ 2)

/-- CConstantPrandtl: construction parameter Pr_const plus the state. -/
structure CConstantPrandtl where
  Pr_const : ℝ
  state : ConductivityState

/-- CConstantPrandtl(double pr_const). -/
def CConstantPrandtl.construct (pr_const : ℝ) : CConstantPrandtl :=
  ⟨pr_const, ConductivityState.init⟩

/-- CConstantPrandtl::SetConductivity: Kt = mu*cp/Pr_const. -/
def CConstantPrandtl.SetConductivity (m : CConstantPrandtl) (T rho mu cp : ℝ) :
    CConstantPrandtl :=
  { m with state := { m.state with Kt := mu * cp / m.Pr_const } }

/-- CConstantPrandtl::SetDerConductivity:
dktdrho_T = dmudrho_T*cp/Pr_const; dktdT_rho = dmudT_rho*cp/Pr_const. -/
def CConstantPrandtl.SetDerConductivity (m : CConstantPrandtl)
    (T rho dmudrho_T dmudT_rho cp : ℝ) : CConstantPrandtl :=
  { m with state := { m.state with
      dktdrho_T := dmudrho_T * cp / m.Pr_const
      dktdT_rho := dmudT_rho * cp / m.Pr_const } }

/-- CConstantConductivity. -/
structure CConstantConductivity where
  state : ConductivityState

/-- CConstantConductivity(double kt_const): Kt = kt_const, derivatives 0.0. -/
def CConstantConductivity.construct (kt_const : ℝ) : CConstantConductivity :=
  ⟨⟨kt_const, 0, 0⟩⟩

/-- Modelled from the spec: the bodies of CConstantConductivity's evaluation
methods live in transport_model.hpp, which is not among the provided
sources; the spec states that for the Constant variant both operations
are no-ops. -/
def CConstantConductivity.SetConductivity (m : CConstantConductivity)
    (T rho mu cp : ℝ) : CConstantConductivity := m

/-- Modelled from the spec: see CConstantConductivity.SetConductivity. -/
def CConstantConductivity.SetDerConductivity (m : CConstantConductivity)
    (T rho dmudrho_T dmudT_rho cp : ℝ) : CConstantConductivity := m

/- ------------------------------------------------------------------ -/
/- Theorems for the claims. -/
/- ------------------------------------------------------------------ -/

/-- C6: for every Sutherland instance and every T, rho, after
SetDerViscosity the stored density derivative dmudrho_T is exactly 0. -/
theorem sutherland_dmudrho_zero (m : CSutherland) (T rho : ℝ) :
    (m.SetDerViscosity T rho).state.dmudrho_T = 0 := rfl

/-- C3: for every Sutherland instance and every T, rho, the value stored
into dmudT_rho by SetDerViscosity equals the spec's closed form
Mu_ref*[1.5*(T/T_ref)^0.5*(T_ref+S)/(T+S) - (T/T_ref)^1.5*(T_ref+S)/(T+S)^2]
(algebraic equivalence over the reals). -/
theorem sutherland_dmudT_matches_spec_form (m : CSutherland) (T rho : ℝ) :
    (m.SetDerViscosity T rho).state.dmudT_rho
      = specSutherlandDmudT m.Mu_ref m.T_ref m.S T := by
  show m.Mu_ref * ((3 : ℝ)/2 * (T / m.T_ref) ^ ((1 : ℝ)/2) * ((m.T_ref + m.S) / (T + m.S))
        - (T / m.T_ref) ^ ((3 : ℝ)/2) * (m.T_ref + m.S) / (T + m.S) / (T + m.S))
      = specSutherlandDmudT m.Mu_ref m.T_ref m.S T
  unfold specSutherlandDmudT
  generalize (T / m.T_ref) ^ ((1 : ℝ)/2) = A
  generalize (T / m.T_ref) ^ ((3 : ℝ)/2) = B
  generalize m.T_ref + m.S = R
  generalize T + m.S = D
  rw [div_div, sq, ← mul_div_assoc]

/-- C5: for every Constant-Prandtl instance with Pr_const > 0 and all
arguments, SetConductivity stores Kt = mu*cp/Pr_const and
SetDerConductivity stores dktdrho_T = dmudrho_T*cp/Pr_const and
dktdT_rho = dmudT_rho*cp/Pr_const. -/
theorem constantPrandtl_formulas (m : CConstantPrandtl)
    (T rho mu cp dmr dmt : ℝ) (hpr : 0 < m.Pr_const) :
    (m.SetConductivity T rho mu cp).state.Kt = mu * cp / m.Pr_const
    ∧ (m.SetDerConductivity T rho dmr dmt cp).state.dktdrho_T = dmr * cp / m.Pr_const
    ∧ (m.SetDerConductivity T rho dmr dmt cp).state.dktdT_rho = dmt * cp / m.Pr_const :=
  ⟨rfl, rfl, rfl⟩

/-- Witness for C5 at Pr_const = 2, T = 1, rho = 1, mu = 6, cp = 4,
dmudrho_T = 10, dmudT_rho = 8. -/
theorem constantPrandtl_formulas_witness :
    ((CConstantPrandtl.construct 2).SetConductivity 1 1 6 4).state.Kt = 6 * 4 / 2
    ∧ (((CConstantPrandtl.construct 2).SetDerConductivity 1 1 10 8 4).state.dktdrho_T = 10 * 4 / 2
    ∧ ((CConstantPrandtl.construct 2).SetDerConductivity 1 1 10 8 4).state.dktdT_rho = 8 * 4 / 2) :=
  constantPrandtl_formulas (CConstantPrandtl.construct 2) 1 1 6 4 10 8
    (by norm_num [CConstantPrandtl.construct])

/-- C2 counterexample: with Mu_ref = 1, T_ref = 0, S = 1 the side condition
T_ref + S ≠ 0 demanded by the claim holds, yet at T = T_ref the stored Mu
is 0, not Mu_ref = 1 (the claim omits the needed condition T_ref ≠ 0). -/
theorem sutherland_at_Tref_counterexample :
    (CSutherland.construct 1 0 1).T_ref + (CSutherland.construct 1 0 1).S ≠ 0
    ∧ ((CSutherland.construct 1 0 1).SetViscosity
        (CSutherland.construct 1 0 1).T_ref 5).state.Mu
        ≠ (CSutherland.construct 1 0 1).Mu_ref := by
  constructor
  · norm_num [CSutherland.construct]
  · show (1 : ℝ) * ((0 : ℝ) / 0) ^ ((3 : ℝ)/2) * (((0 : ℝ) + 1) / ((0 : ℝ) + 1)) ≠ 1
    rw [div_zero, Real.zero_rpow (by norm_num)]
    norm_num

/-- C2 (amended with T_ref ≠ 0): for every Sutherland instance and every
T, rho, SetViscosity stores Mu = Mu_ref*(T/T_ref)^1.5*(T_ref+S)/(T+S);
and when T_ref ≠ 0 and T_ref + S ≠ 0, at T = T_ref the stored Mu equals
Mu_ref. -/
theorem sutherland_setViscosity_formula (m : CSutherland) (T rho : ℝ)
    (ht : m.T_ref ≠ 0) (hts : m.T_ref + m.S ≠ 0) :
    (m.SetViscosity T rho).state.Mu
      = m.Mu_ref * (T / m.T_ref) ^ ((3 : ℝ)/2) * ((m.T_ref + m.S) / (T + m.S))
    ∧ (m.SetViscosity m.T_ref rho).state.Mu = m.Mu_ref := by
  refine ⟨rfl, ?_⟩
  show m.Mu_ref * (m.T_ref / m.T_ref) ^ ((3 : ℝ)/2)
        * ((m.T_ref + m.S) / (m.T_ref + m.S)) = m.Mu_ref
  rw [div_self ht, Real.one_rpow, div_self hts, mul_one, mul_one]

/-- Witness for the amended C2 at Mu_ref = 2, T_ref = 3, S = 4, T = 5,
rho = 7. -/
theorem sutherland_setViscosity_formula_witness :
    ((CSutherland.construct 2 3 4).SetViscosity 5 7).state.Mu
      = 2 * ((5 : ℝ) / 3) ^ ((3 : ℝ)/2) * (((3 : ℝ) + 4) / ((5 : ℝ) + 4))
    ∧ ((CSutherland.construct 2 3 4).SetViscosity 3 7).state.Mu = 2 :=
  sutherland_setViscosity_formula (CSutherland.construct 2 3 4) 5 7
    (by norm_num [CSutherland.construct]) (by norm_num [CSutherland.construct])

/-- The correct analytic derivative of the Sutherland viscosity function
muSutherland mu_ref t_ref s at a temperature T > 0, for t_ref > 0 and
T + s ≠ 0: d/dT of mu_ref*(T/t_ref)^1.5*(t_ref+s)/(T+s) is
mu_ref*(1.5*(T/t_ref)^0.5*(1/t_ref)*(t_ref+s)/(T+s)
        - (T/t_ref)^1.5*(t_ref+s)/(T+s)^2).
Note the chain-rule factor 1/t_ref on the first term. -/
lemma hasDerivAt_muSutherland (mu_ref t_ref s T : ℝ)
    (hT : 0 < T) (ht : 0 < t_ref) (hs : T + s ≠ 0) :
    HasDerivAt (muSutherland mu_ref t_ref s)
      (mu_ref * ((3 : ℝ)/2 * (T / t_ref) ^ ((1 : ℝ)/2) * (1 / t_ref) * ((t_ref + s) / (T + s))
        - (T / t_ref) ^ ((3 : ℝ)/2) * (t_ref + s) / (T + s) ^ 2)) T := by
  have hTt : T / t_ref ≠ 0 := div_ne_zero hT.ne' ht.ne'
  have hg : HasDerivAt (fun x : ℝ => (x / t_ref) ^ ((3 : ℝ)/2))
      (1 / t_ref * ((3 : ℝ)/2) * (T / t_ref) ^ ((3 : ℝ)/2 - 1)) T :=
    ((hasDerivAt_id T).div_const t_ref).rpow_const (Or.inl hTt)
  have hh : HasDerivAt (fun x : ℝ => (t_ref + s) / (x + s))
      ((0 * (T + s) - (t_ref + s) * 1) / (T + s) ^ 2) T :=
    (hasDerivAt_const T (t_ref + s)).div ((hasDerivAt_id T).add_const s) hs
  have key := (hg.const_mul mu_ref).mul hh
  rw [show (3 : ℝ)/2 - 1 = 1/2 by norm_num] at key
  have hfun : muSutherland mu_ref t_ref s
      = fun x : ℝ => mu_ref * (x / t_ref) ^ ((3 : ℝ)/2) * ((t_ref + s) / (x + s)) := rfl
  rw [hfun]
  convert key using 1
  generalize (T / t_ref) ^ ((1 : ℝ)/2) = A
  generalize (T / t_ref) ^ ((3 : ℝ)/2) = B
  generalize t_ref + s = R
  generalize T + s = D
  ring

/-- C1: the code stores a value that is NOT the derivative of the function
computed by SetViscosity.  With Mu_ref = 1, T_ref = 4, S = 0 and T = 4,
SetDerViscosity stores dmudT_rho = 5/4, while the derivative of
muSutherland 1 4 0 at T = 4 is 1/8 (the code's first term is missing the
chain-rule factor 1/T_ref). -/
theorem sutherland_deriv_bug :
    ((CSutherland.construct 1 4 0).SetDerViscosity 4 1).state.dmudT_rho = 5/4
    ∧ HasDerivAt (muSutherland 1 4 0) (1/8) 4
    ∧ ((5 : ℝ)/4 ≠ 1/8) := by
  refine ⟨?_, ?_, by norm_num⟩
  · show (1 : ℝ) * ((3 : ℝ)/2 * ((4 : ℝ)/4) ^ ((1 : ℝ)/2) * (((4 : ℝ) + 0) / ((4 : ℝ) + 0))
        - ((4 : ℝ)/4) ^ ((3 : ℝ)/2) * ((4 : ℝ) + 0) / ((4 : ℝ) + 0) / ((4 : ℝ) + 0)) = 5/4
    norm_num
  · have h := hasDerivAt_muSutherland 1 4 0 4 (by norm_num) (by norm_num) (by norm_num)
    convert h using 1
    norm_num

/-- The seven outputs of fluidprop_alltransprops:
eta, deta_dT, deta_drho, lambda, dlambda_dT, dlambda_drho, sigma. -/
structure FluidPropOut where
  eta : ℝ
  deta_dT : ℝ
  deta_drho : ℝ
  lambda : ℝ
  dlambda_dT : ℝ
  dlambda_drho : ℝ
  sigma : ℝ

/-- Model of the external FluidProp service: one call to
fluidprop_alltransprops with an input-mode tag and (T, rho), followed by
fluidprop_geterror.  The pair holds the seven outputs together with the
error string reported for that call; the sentinel "No errors" means
success. -/
structure FluidPropService where
  alltransprops : String → ℝ → ℝ → FluidPropOut × String

/-- One diagnostic line printed on a FluidProp error: the error text and
the numbers interpolated into the printf format string. -/
structure Diag where
  errText : String
  values : List ℝ

/-- CFluidPropViscosity: no construction parameters. -/
structure CFluidPropViscosity where
  state : ViscosityState

/-- CFluidPropViscosity default constructor. -/
def CFluidPropViscosity.construct : CFluidPropViscosity := ⟨ViscosityState.init⟩

/-- CFluidPropViscosity::SetViscosity: queries the service in "Td" mode,
stores the returned eta into Mu, and when the error string differs from
"No errors" prints the error text and (T, rho, Mu); it always returns
normally.  The second component is the list of diagnostics printed. -/
def CFluidPropViscosity.SetViscosity (svc : FluidPropService)
    (m : CFluidPropViscosity) (T rho : ℝ) : CFluidPropViscosity × List Diag :=
  let r := svc.alltransprops "Td" T rho
  let m2 : CFluidPropViscosity := { m with state := { m.state with Mu := r.1.eta } }
  if r.2 = "No errors" then (m2, []) else (m2, [⟨r.2, [T, rho, r.1.eta]⟩])

/-- CFluidPropViscosity::SetDerViscosity: stores the returned deta_dT into
dmudT_rho and deta_drho into dmudrho_T; on a non-sentinel error string it
prints the error text and (T, rho, dmudT_rho, dmudT_rho) — the source
prints dmudT_rho twice. -/
def CFluidPropViscosity.SetDerViscosity (svc : FluidPropService)
    (m : CFluidPropViscosity) (T rho : ℝ) : CFluidPropViscosity × List Diag :=
  let r := svc.alltransprops "Td" T rho
  let m2 : CFluidPropViscosity := { m with state := { m.state with
      dmudT_rho := r.1.deta_dT
      dmudrho_T := r.1.deta_drho } }
  if r.2 = "No errors" then (m2, [])
  else (m2, [⟨r.2, [T, rho, r.1.deta_dT, r.1.deta_dT]⟩])

/-- CFluidPropConductivity: construction parameter Pr_const plus the state. -/
structure CFluidPropConductivity where
  Pr_const : ℝ
  state : ConductivityState

/-- CFluidPropConductivity(double pr_const). -/
def CFluidPropConductivity.construct (pr_const : ℝ) : CFluidPropConductivity :=
  ⟨pr_const, ConductivityState.init⟩

/-- CFluidPropConductivity::SetConductivity: stores the returned lambda
into Kt; same error policy as the viscosity variant. -/
def CFluidPropConductivity.SetConductivity (svc : FluidPropService)
    (m : CFluidPropConductivity) (T rho mu cp : ℝ) :
    CFluidPropConductivity × List Diag :=
  let r := svc.alltransprops "Td" T rho
  let m2 : CFluidPropConductivity := { m with state := { m.state with Kt := r.1.lambda } }
  if r.2 = "No errors" then (m2, []) else (m2, [⟨r.2, [T, rho, r.1.lambda]⟩])

/-- CFluidPropConductivity::SetDerConductivity: stores the returned
dlambda_dT into dktdT_rho and dlambda_drho into dktdrho_T; the diagnostic
prints dktdT_rho twice, as the source does. -/
def CFluidPropConductivity.SetDerConductivity (svc : FluidPropService)
    (m : CFluidPropConductivity) (T rho dmudrho_T dmudT_rho cp : ℝ) :
    CFluidPropConductivity × List Diag :=
  let r := svc.alltransprops "Td" T rho
  let m2 : CFluidPropConductivity := { m with state := { m.state with
      dktdT_rho := r.1.dlambda_dT
      dktdrho_T := r.1.dlambda_drho } }
  if r.2 = "No errors" then (m2, [])
  else (m2, [⟨r.2, [T, rho, r.1.dlambda_dT, r.1.dlambda_dT]⟩])

/-- C4: for every service and every call, when the error string for the
query differs from "No errors", each of the four external-library-backed
calls emits a diagnostic (nonempty printed-line list), is a total function
(so it returns normally, never raises), stores exactly the service outputs
into the fields it normally writes, and leaves every other result field
unchanged. -/
theorem fluidprop_error_logged_and_continues (svc : FluidPropService)
    (mv : CFluidPropViscosity) (mc : CFluidPropConductivity)
    (T rho mu cp dmr dmt : ℝ)
    (herr : (svc.alltransprops "Td" T rho).2 ≠ "No errors") :
    ((CFluidPropViscosity.SetViscosity svc mv T rho).2 ≠ []
      ∧ (CFluidPropViscosity.SetViscosity svc mv T rho).1.state.Mu
          = (svc.alltransprops "Td" T rho).1.eta
      ∧ (CFluidPropViscosity.SetViscosity svc mv T rho).1.state.dmudrho_T
          = mv.state.dmudrho_T
      ∧ (CFluidPropViscosity.SetViscosity svc mv T rho).1.state.dmudT_rho
          = mv.state.dmudT_rho)
    ∧ ((CFluidPropViscosity.SetDerViscosity svc mv T rho).2 ≠ []
      ∧ (CFluidPropViscosity.SetDerViscosity svc mv T rho).1.state.dmudT_rho
          = (svc.alltransprops "Td" T rho).1.deta_dT
      ∧ (CFluidPropViscosity.SetDerViscosity svc mv T rho).1.state.dmudrho_T
          = (svc.alltransprops "Td" T rho).1.deta_drho
      ∧ (CFluidPropViscosity.SetDerViscosity svc mv T rho).1.state.Mu
          = mv.state.Mu)
    ∧ ((CFluidPropConductivity.SetConductivity svc mc T rho mu cp).2 ≠ []
      ∧ (CFluidPropConductivity.SetConductivity svc mc T rho mu cp).1.state.Kt
          = (svc.alltransprops "Td" T rho).1.lambda
      ∧ (CFluidPropConductivity.SetConductivity svc mc T rho mu cp).1.state.dktdrho_T
          = mc.state.dktdrho_T
      ∧ (CFluidPropConductivity.SetConductivity svc mc T rho mu cp).1.state.dktdT_rho
          = mc.state.dktdT_rho
      ∧ (CFluidPropConductivity.SetConductivity svc mc T rho mu cp).1.Pr_const
          = mc.Pr_const)
    ∧ ((CFluidPropConductivity.SetDerConductivity svc mc T rho dmr dmt cp).2 ≠ []
      ∧ (CFluidPropConductivity.SetDerConductivity svc mc T rho dmr dmt cp).1.state.dktdT_rho
          = (svc.alltransprops "Td" T rho).1.dlambda_dT
      ∧ (CFluidPropConductivity.SetDerConductivity svc mc T rho dmr dmt cp).1.state.dktdrho_T
          = (svc.alltransprops "Td" T rho).1.dlambda_drho
      ∧ (CFluidPropConductivity.SetDerConductivity svc mc T rho dmr dmt cp).1.state.Kt
          = mc.state.Kt
      ∧ (CFluidPropConductivity.SetDerConductivity svc mc T rho dmr dmt cp).1.Pr_const
          = mc.Pr_const) := by
  simp [CFluidPropViscosity.SetViscosity, CFluidPropViscosity.SetDerViscosity,
    CFluidPropConductivity.SetConductivity, CFluidPropConductivity.SetDerConductivity,
    herr]

/-- A concrete always-failing service used to witness the error path. -/
def badService : FluidPropService :=
  ⟨fun _ _ _ => (⟨1, 2, 3, 4, 5, 6, 7⟩, "E")⟩

/-- Witness for C4 on the concrete failing service at T = 1, rho = 2. -/
theorem fluidprop_error_logged_and_continues_witness :
    (badService.alltransprops "Td" 1 2).2 ≠ "No errors"
    ∧ (CFluidPropViscosity.SetViscosity badService CFluidPropViscosity.construct 1 2).2 ≠ []
    ∧ (CFluidPropConductivity.SetConductivity badService
        (CFluidPropConductivity.construct 9) 1 2 3 4).2 ≠ [] := by
  have hne : (badService.alltransprops "Td" 1 2).2 ≠ "No errors" := by
    simp [badService]
  have h := fluidprop_error_logged_and_continues badService
    CFluidPropViscosity.construct (CFluidPropConductivity.construct 9)
    1 2 3 4 5 6 hne
  exact ⟨hne, h.1.1, h.2.2.1.1⟩

/-- C7: for the Constant viscosity and Constant conductivity models, the
evaluation calls change no field: they are the identity on the instance,
and in particular on an instance constructed from mu_const (resp.
kt_const) the stored value stays at that constant and both stored
derivative fields stay exactly zero. -/
theorem constant_models_noop (mu_const kt_const T rho mu cp dmr dmt : ℝ)
    (mv : CConstantViscosity) (mc : CConstantConductivity) :
    mv.SetViscosity T rho = mv
    ∧ mv.SetDerViscosity T rho = mv
    ∧ mc.SetConductivity T rho mu cp = mc
    ∧ mc.SetDerConductivity T rho dmr dmt cp = mc
    ∧ (((CConstantViscosity.construct mu_const).SetViscosity T rho).SetDerViscosity T rho).state.Mu = mu_const
    ∧ (((CConstantViscosity.construct mu_const).SetViscosity T rho).SetDerViscosity T rho).state.dmudrho_T = 0
    ∧ (((CConstantViscosity.construct mu_const).SetViscosity T rho).SetDerViscosity T rho).state.dmudT_rho = 0
    ∧ (((CConstantConductivity.construct kt_const).SetConductivity T rho mu cp).SetDerConductivity T rho dmr dmt cp).state.Kt = kt_const
    ∧ (((CConstantConductivity.construct kt_const).SetConductivity T rho mu cp).SetDerConductivity T rho dmr dmt cp).state.dktdrho_T = 0
    ∧ (((CConstantConductivity.construct kt_const).SetConductivity T rho mu cp).SetDerConductivity T rho dmr dmt cp).state.dktdT_rho = 0 :=
  ⟨rfl, rfl, rfl, rfl, rfl, rfl, rfl, rfl, rfl, rfl⟩

/-- One evaluation call on a Sutherland instance. -/
inductive SuthCall
  | visc (T rho : ℝ)
  | der (T rho : ℝ)

/-- Dispatch one Sutherland evaluation call. -/
def CSutherland.applyCall (m : CSutherland) : SuthCall → CSutherland
  | .visc T rho => m.SetViscosity T rho
  | .der T rho => m.SetDerViscosity T rho

/-- Run a sequence of Sutherland evaluation calls, left to right. -/
def CSutherland.runCalls (m : CSutherland) : List SuthCall → CSutherland
  | [] => m
  | c :: cs => (m.applyCall c).runCalls cs

/-- One evaluation call on a Constant-Prandtl instance. -/
inductive PrandtlCall
  | cond (T rho mu cp : ℝ)
  | der (T rho dmr dmt cp : ℝ)

/-- Dispatch one Constant-Prandtl evaluation call. -/
def CConstantPrandtl.applyCall (m : CConstantPrandtl) : PrandtlCall → CConstantPrandtl
  | .cond T rho mu cp => m.SetConductivity T rho mu cp
  | .der T rho dmr dmt cp => m.SetDerConductivity T rho dmr dmt cp

/-- Run a sequence of Constant-Prandtl evaluation calls, left to right. -/
def CConstantPrandtl.runCalls (m : CConstantPrandtl) : List PrandtlCall → CConstantPrandtl
  | [] => m
  | c :: cs => (m.applyCall c).runCalls cs

/-- One evaluation call on a FluidProp conductivity instance, carrying the
service it queries. -/
inductive FPCondCall
  | cond (svc : FluidPropService) (T rho mu cp : ℝ)
  | der (svc : FluidPropService) (T rho dmr dmt cp : ℝ)

/-- Dispatch one FluidProp conductivity evaluation call (the printed
diagnostics are discarded here). -/
def CFluidPropConductivity.applyCall (m : CFluidPropConductivity) :
    FPCondCall → CFluidPropConductivity
  | .cond svc T rho mu cp => (CFluidPropConductivity.SetConductivity svc m T rho mu cp).1
  | .der svc T rho dmr dmt cp =>
      (CFluidPropConductivity.SetDerConductivity svc m T rho dmr dmt cp).1

/-- Run a sequence of FluidProp conductivity evaluation calls. -/
def CFluidPropConductivity.runCalls (m : CFluidPropConductivity) :
    List FPCondCall → CFluidPropConductivity
  | [] => m
  | c :: cs => (m.applyCall c).runCalls cs

/-- One evaluation call on a Constant viscosity instance. -/
inductive ConstViscCall
  | visc (T rho : ℝ)
  | der (T rho : ℝ)

/-- Dispatch one Constant viscosity evaluation call. -/
def CConstantViscosity.applyCall (m : CConstantViscosity) : ConstViscCall → CConstantViscosity
  | .visc T rho => m.SetViscosity T rho
  | .der T rho => m.SetDerViscosity T rho

/-- Run a sequence of Constant viscosity evaluation calls. -/
def CConstantViscosity.runCalls (m : CConstantViscosity) :
    List ConstViscCall → CConstantViscosity
  | [] => m
  | c :: cs => (m.applyCall c).runCalls cs

/-- One evaluation call on a Constant conductivity instance. -/
inductive ConstCondCall
  | cond (T rho mu cp : ℝ)
  | der (T rho dmr dmt cp : ℝ)

/-- Dispatch one Constant conductivity evaluation call. -/
def CConstantConductivity.applyCall (m : CConstantConductivity) :
    ConstCondCall → CConstantConductivity
  | .cond T rho mu cp => m.SetConductivity T rho mu cp
  | .der T rho dmr dmt cp => m.SetDerConductivity T rho dmr dmt cp

/-- Run a sequence of Constant conductivity evaluation calls. -/
def CConstantConductivity.runCalls (m : CConstantConductivity) :
    List ConstCondCall → CConstantConductivity
  | [] => m
  | c :: cs => (m.applyCall c).runCalls cs

/-- A single Sutherland call preserves the construction parameters. -/
lemma sutherland_applyCall_params (m : CSutherland) (c : SuthCall) :
    (m.applyCall c).Mu_ref = m.Mu_ref ∧ (m.applyCall c).T_ref = m.T_ref
    ∧ (m.applyCall c).S = m.S := by
  cases c <;> exact ⟨rfl, rfl, rfl⟩

/-- Any sequence of Sutherland calls preserves the construction parameters. -/
lemma sutherland_runCalls_params (cs : List SuthCall) (m : CSutherland) :
    (m.runCalls cs).Mu_ref = m.Mu_ref ∧ (m.runCalls cs).T_ref = m.T_ref
    ∧ (m.runCalls cs).S = m.S := by
  induction cs generalizing m with
  | nil => exact ⟨rfl, rfl, rfl⟩
  | cons c cs ih =>
    have h1 := sutherland_applyCall_params m c
    have h2 := ih (m.applyCall c)
    exact ⟨h2.1.trans h1.1, h2.2.1.trans h1.2.1, h2.2.2.trans h1.2.2⟩

/-- Any sequence of Constant-Prandtl calls preserves Pr_const. -/
lemma prandtl_runCalls_params (cs : List PrandtlCall) (m : CConstantPrandtl) :
    (m.runCalls cs).Pr_const = m.Pr_const := by
  induction cs generalizing m with
  | nil => rfl
  | cons c cs ih =>
    have h1 : (m.applyCall c).Pr_const = m.Pr_const := by cases c <;> rfl
    exact (ih (m.applyCall c)).trans h1

/-- Any sequence of FluidProp conductivity calls preserves Pr_const. -/
lemma fpcond_runCalls_params (cs : List FPCondCall) (m : CFluidPropConductivity) :
    (m.runCalls cs).Pr_const = m.Pr_const := by
  induction cs generalizing m with
  | nil => rfl
  | cons c cs ih =>
    have h1 : (m.applyCall c).Pr_const = m.Pr_const := by
      cases c <;>
        simp [CFluidPropConductivity.applyCall, CFluidPropConductivity.SetConductivity,
          CFluidPropConductivity.SetDerConductivity] <;>
        split <;> rfl
    exact (ih (m.applyCall c)).trans h1

/-- Any sequence of Constant viscosity calls leaves the instance unchanged. -/
lemma constVisc_runCalls_id (cs : List ConstViscCall) (m : CConstantViscosity) :
    m.runCalls cs = m := by
  induction cs generalizing m with
  | nil => rfl
  | cons c cs ih =>
    have h1 : m.applyCall c = m := by cases c <;> rfl
    rw [CConstantViscosity.runCalls, h1, ih]

/-- Any sequence of Constant conductivity calls leaves the instance
unchanged. -/
lemma constCond_runCalls_id (cs : List ConstCondCall) (m : CConstantConductivity) :
    m.runCalls cs = m := by
  induction cs generalizing m with
  | nil => rfl
  | cons c cs ih =>
    have h1 : m.applyCall c = m := by cases c <;> rfl
    rw [CConstantConductivity.runCalls, h1, ih]

/-- C8: for every model variant, any sequence of evaluation calls leaves
the construction-time parameters unchanged: Mu_ref, T_ref, S for
Sutherland; Pr_const for Constant-Prandtl and FluidProp conductivity; the
stored constant for the Constant variants. -/
theorem params_immutable_under_calls :
    (∀ (m : CSutherland) (cs : List SuthCall),
      (m.runCalls cs).Mu_ref = m.Mu_ref ∧ (m.runCalls cs).T_ref = m.T_ref
      ∧ (m.runCalls cs).S = m.S)
    ∧ (∀ (m : CConstantPrandtl) (cs : List PrandtlCall),
      (m.runCalls cs).Pr_const = m.Pr_const)
    ∧ (∀ (m : CFluidPropConductivity) (cs : List FPCondCall),
      (m.runCalls cs).Pr_const = m.Pr_const)
    ∧ (∀ (m : CConstantViscosity) (cs : List ConstViscCall),
      (m.runCalls cs).state.Mu = m.state.Mu)
    ∧ (∀ (m : CConstantConductivity) (cs : List ConstCondCall),
      (m.runCalls cs).state.Kt = m.state.Kt) :=
  ⟨fun m cs => sutherland_runCalls_params cs m,
   fun m cs => prandtl_runCalls_params cs m,
   fun m cs => fpcond_runCalls_params cs m,
   fun m cs => by rw [constVisc_runCalls_id cs m],
   fun m cs => by rw [constCond_runCalls_id cs m]⟩

/-- C9: for the Constant, Sutherland and Constant-Prandtl models, calling
the same evaluation operation twice with identical arguments leaves the
instance identical to its value after the first call. -/
theorem evaluate_idempotent (ms : CSutherland) (mp : CConstantPrandtl)
    (mv : CConstantViscosity) (mc : CConstantConductivity)
    (T rho mu cp dmr dmt : ℝ) :
    (ms.SetViscosity T rho).SetViscosity T rho = ms.SetViscosity T rho
    ∧ (ms.SetDerViscosity T rho).SetDerViscosity T rho = ms.SetDerViscosity T rho
    ∧ (mp.SetConductivity T rho mu cp).SetConductivity T rho mu cp
        = mp.SetConductivity T rho mu cp
    ∧ (mp.SetDerConductivity T rho dmr dmt cp).SetDerConductivity T rho dmr dmt cp
        = mp.SetDerConductivity T rho dmr dmt cp
    ∧ (mv.SetViscosity T rho).SetViscosity T rho = mv.SetViscosity T rho
    ∧ (mv.SetDerViscosity T rho).SetDerViscosity T rho = mv.SetDerViscosity T rho
    ∧ (mc.SetConductivity T rho mu cp).SetConductivity T rho mu cp
        = mc.SetConductivity T rho mu cp
    ∧ (mc.SetDerConductivity T rho dmr dmt cp).SetDerConductivity T rho dmr dmt cp
        = mc.SetDerConductivity T rho dmr dmt cp :=
  ⟨rfl, rfl, rfl, rfl, rfl, rfl, rfl, rfl⟩

/-- C10: the Constant-Prandtl results do not depend on T and rho: two
instances with equal Pr_const store equal Kt for equal (mu, cp) whatever
(T, rho) each is called with, and equal derivative fields for equal
(dmudrho_T, dmudT_rho, cp). -/
theorem constantPrandtl_independent_of_T_rho (m1 m2 : CConstantPrandtl)
    (T1 rho1 T2 rho2 mu cp dmr dmt : ℝ) (h : m1.Pr_const = m2.Pr_const) :
    (m1.SetConductivity T1 rho1 mu cp).state.Kt
      = (m2.SetConductivity T2 rho2 mu cp).state.Kt
    ∧ (m1.SetDerConductivity T1 rho1 dmr dmt cp).state.dktdrho_T
      = (m2.SetDerConductivity T2 rho2 dmr dmt cp).state.dktdrho_T
    ∧ (m1.SetDerConductivity T1 rho1 dmr dmt cp).state.dktdT_rho
      = (m2.SetDerConductivity T2 rho2 dmr dmt cp).state.dktdT_rho := by
  refine ⟨?_, ?_, ?_⟩ <;>
    simp [CConstantPrandtl.SetConductivity, CConstantPrandtl.SetDerConductivity, h]

/-- Witness for C10 at Pr_const = 3 on both sides, (T1, rho1) = (1, 2),
(T2, rho2) = (5, 6), mu = 7, cp = 8, dmudrho_T = 9, dmudT_rho = 10. -/
theorem constantPrandtl_independent_of_T_rho_witness :
    ((CConstantPrandtl.construct 3).SetConductivity 1 2 7 8).state.Kt
      = ((CConstantPrandtl.construct 3).SetConductivity 5 6 7 8).state.Kt
    ∧ ((CConstantPrandtl.construct 3).SetDerConductivity 1 2 9 10 8).state.dktdrho_T
      = ((CConstantPrandtl.construct 3).SetDerConductivity 5 6 9 10 8).state.dktdrho_T
    ∧ ((CConstantPrandtl.construct 3).SetDerConductivity 1 2 9 10 8).state.dktdT_rho
      = ((CConstantPrandtl.construct 3).SetDerConductivity 5 6 9 10 8).state.dktdT_rho :=
  constantPrandtl_independent_of_T_rho (CConstantPrandtl.construct 3)
    (CConstantPrandtl.construct 3) 1 2 5 6 7 8 9 10 rfl
